import Mathlib

/-! Verification of the JJB-MM-game market-making core against its
natural-language specification.

The Python sources embedded here are:
* `maker.py` — `OrderType`, the abstract `MarketMaker` contract, and the
  reference strategy `SimpleMarketMaker` with its Monte-Carlo forecaster
  `simulate`.
* The matching engine and simulation driver live in `simulation.py`, which is
  not part of the available sources (only its callers are); those components
  are modelled from the spec, and each such definition says so in its doc
  comment.

Conventions of the embedding:
* Python floats are modelled as real numbers (`ℝ`); Python ints as `ℤ`/`ℕ`.
* A Python function that can raise is modelled with `Except PyErr` (for the
  strategy, whose body hits undefined names) or `Option` (for the forecaster,
  whose only failure is an out-of-range index).
* `np.random.normal(loc, scale, n)` is modelled by an oracle
  `z : ℕ → ℕ → ℝ` of standard-normal draws: draw `j` of trial `i` is
  `loc + scale * z i j`.  This reflects numpy's parameterisation: `loc` is the
  mean and `scale` the standard deviation of the draws.
-/

namespace MMGame

/-- Embedded from `maker.py`, class `OrderType` (lines 6-18): an order is a
tag string ("limit" or "market") plus a validity window. -/
structure OrderType where
  type : String
  from_time : ℤ
  to_time : ℤ
  deriving DecidableEq, Repr

/-- Embedded from `maker.py`, `OrderType.new_limit_order` (lines 23-27):
constructs a limit order with the given window; no validation is performed. -/
def OrderType.new_limit_order (from_time to_time : ℤ) : OrderType :=
  ⟨"limit", from_time, to_time⟩

/-- Embedded from `maker.py`, `OrderType.new_market_order` (lines 29-33):
constructs a market order whose window degenerates to the timestamp. -/
def OrderType.new_market_order (timestamp : ℤ) : OrderType :=
  ⟨"market", timestamp, timestamp⟩

/-- Python runtime errors that `SimpleMarketMaker.update` can raise. -/
inductive PyErr where
  | nameError (name : String)
  | attributeError (name : String)
  deriving DecidableEq, Repr

/-- Python float floor division `a // b` (result is a float). -/
noncomputable def pyFloorDiv (a b : ℝ) : ℝ := ⌊a / b⌋

/-- The tuple returned by `SimpleMarketMaker.update`:
`(bid_price, bid_volume, ask_price, ask_volume, order_type)`.  The volumes are
reals because the source computes them by float floor division `//`. -/
structure Quote where
  bid_price : ℝ
  bid_volume : ℝ
  ask_price : ℝ
  ask_volume : ℝ
  order : OrderType

/-- Embedded from `maker.py`, `SimpleMarketMaker.__init__` (lines 78-97):
the per-instance state of the reference strategy. -/
structure MakerState where
  prev_bid_history : List ℝ
  prev_ask_history : List ℝ
  prev_mm_bid_price_history : List ℝ
  prev_mm_ask_price_history : List ℝ
  prev_mm_bid_amt_history : List ℝ
  prev_mm_ask_amt_history : List ℝ
  prev_holding_history : List ℝ
  prev_money_history : List ℝ
  spread_pct : ℝ
  window : ℕ
  simulations : ℕ
  sim_horizon : ℕ

/-- The constructor values of `SimpleMarketMaker.__init__` (lines 78-97). -/
noncomputable def initMakerState : MakerState :=
  { prev_bid_history := []
    prev_ask_history := []
    prev_mm_bid_price_history := []
    prev_mm_ask_price_history := []
    prev_mm_bid_amt_history := []
    prev_mm_ask_amt_history := []
    prev_holding_history := []
    prev_money_history := []
    spread_pct := 0.5
    window := 10
    simulations := 10
    sim_horizon := 3 }

/-- Embedded from `maker.py`, lines 176-193 of `SimpleMarketMaker.update`:
the spread-adaptation block.  Given the smoothed fill rate of the previous
quote it moves `spread_pct` by 0.005 and then applies the source's clamp
exactly as written: `min(·, 0.9)` after the decrement and `max(·, 0.1)`
after the increment.  (In the shipped code this block is unreachable: every
call to `update` raises before line 176 — see `update` below.) -/
noncomputable def adjustSpread (fillRate spread : ℝ) : ℝ :=
  if fillRate > 0.75 then min (spread - 0.005) 0.9
  else max (spread + 0.005) 0.1

/-- Embedded from `maker.py`, lines 143-155 of `SimpleMarketMaker.update`:
the quote that the first-call branch's `return` statement (line 155) builds.
In the source this statement is never reached, because line 147 raises
`NameError` first; the expression itself is well defined and is embedded here
so its shape can be stated. -/
noncomputable def naiveQuote (prev_bid_price prev_ask_price money : ℝ)
    (timestamp : ℤ) : Quote :=
  let p_diff := prev_ask_price - prev_bid_price
  let cur_bid := prev_bid_price + p_diff / 4
  let cur_ask := prev_ask_price - p_diff / 4
  { bid_price := cur_bid
    bid_volume := pyFloorDiv (pyFloorDiv money cur_bid) 2
    ask_price := cur_ask
    ask_volume := 0
    order := OrderType.new_limit_order timestamp (timestamp + 1) }

/-- Embedded from `maker.py`, `SimpleMarketMaker.update` (lines 124-219).

The four `append`s of lines 126-129 mutate the instance before anything can
fail, so they are applied to the state unconditionally.  After them:

* first call (`len(self.prev_bid_history) <= 1`, line 135): lines 143-145
  compute `p_diff`, `cur_bid`, `cur_ask` without error; line 147 then reads
  the unqualified name `prev_mm_bid_price_history`, which is neither a local
  nor a global, so Python raises `NameError` and the `return` at line 155
  is never reached;
* any later call: line 157 computes `diff_money` without error; line 158 then
  reads `self.holding_history`, an attribute never assigned (the constructor
  only defines `prev_holding_history`), so Python raises `AttributeError`
  before reaching the broken `.len` accesses (lines 162-163), the spread
  adaptation (lines 176-193), or the undefined name `holdings` (line 217).

The returned pair is (mutated state, outcome). -/
noncomputable def update (s : MakerState)
    (prev_bid_price prev_ask_price holding money : ℝ) (timestamp : ℤ) :
    MakerState × Except PyErr Quote :=
  let s' : MakerState :=
    { s with
      prev_bid_history := s.prev_bid_history ++ [prev_bid_price]
      prev_ask_history := s.prev_ask_history ++ [prev_ask_price]
      prev_money_history := s.prev_money_history ++ [money]
      prev_holding_history := s.prev_holding_history ++ [holding] }
  if s'.prev_bid_history.length ≤ 1 then
    (s', Except.error (PyErr.nameError "prev_mm_bid_price_history"))
  else
    (s', Except.error (PyErr.attributeError "holding_history"))

/-- Returns `true` iff the outcome is a raised `NameError`. -/
def errIsNameError : Except PyErr Quote → Bool
  | Except.error (PyErr.nameError _) => true
  | _ => false

/-! ### The forecaster (`SimpleMarketMaker.simulate`, `maker.py` lines 221-238) -/

/-- Arithmetic mean of a list, `np.mean`: sum divided by length (0 on the
empty list in this embedding; the forecaster never takes the mean of an
empty list when `window ≥ 2`). -/
noncomputable def mean (l : List ℝ) : ℝ := l.sum / l.length

/-- Population variance, the square of `np.std`: mean of squared deviations
from the mean. -/
noncomputable def popVar (l : List ℝ) : ℝ :=
  mean (l.map (fun x => (x - mean l) ^ 2))

/-- Numpy `np.std`: population standard deviation. -/
noncomputable def popStd (l : List ℝ) : ℝ := Real.sqrt (popVar l)

/-- Numpy `np.diff`: successive differences `l[i+1] - l[i]`. -/
def diffList (l : List ℝ) : List ℝ :=
  List.zipWith (fun x y => x - y) l.tail l

/-- Python slice `l[-w:]`: the last `min w (length l)` elements. -/
def lastN (w : ℕ) (l : List ℝ) : List ℝ := l.drop (l.length - w)

/-- Numpy `np.cumsum`: running partial sums. -/
def cumsum (l : List ℝ) : List ℝ :=
  (l.scanl (fun a b => a + b) 0).tail

/-- Embedded from `maker.py` line 226: the mid-price series of the last `w` retained
observations, `(np.array(bids[-w:]) + np.array(asks[-w:])) / 2`.
(The histories always have equal length, appended in lockstep.) -/
noncomputable def midWindow (w : ℕ) (bids asks : List ℝ) : List ℝ :=
  List.zipWith (fun b a => (b + a) / 2) (lastN w bids) (lastN w asks)

/-- Embedded from `maker.py` line 229, the local variable `std`:
`std = np.std(diffs) ** 2`.  Note that this is the population *variance* of
the log-returns, despite the variable's name. -/
noncomputable def simStd (ph : List ℝ) : ℝ :=
  popStd (diffList (ph.map Real.log)) ^ 2

/-- Embedded from `maker.py` line 230, the local variable `drift`:
`drift = np.mean(diffs) + std ** 2 / 2`, i.e. mean of the log-returns plus
the *square of the variance* over two (since `std` already holds the
variance). -/
noncomputable def simDrift (ph : List ℝ) : ℝ :=
  mean (diffList (ph.map Real.log)) + simStd ph ^ 2 / 2

/-- Embedded from `maker.py`, `SimpleMarketMaker.simulate` (lines 221-238),
with the retained bid/ask histories and the configuration passed explicitly.

* Lines 222-224: if fewer than `window` observations are retained, return the
  bootstrap `(mid0, 0.05 * mid0)` of the first observation; `none` models the
  `IndexError` that `self.prev_bid_history[0]` / `self.prev_ask_history[0]`
  raise when the corresponding history is empty.
* Lines 226-238: otherwise run `sims` Monte-Carlo trials.  Trial `i` draws
  `horizon` values `np.random.normal(drift, std)` — modelled as
  `drift + std * z i j` for the standard-normal oracle `z` — cumulatively
  sums them, and multiplies `exp` of each partial sum by the last mid-price
  `price_history[-1]` (whose lookup on an empty window is again an
  `IndexError`, modelled by `none`).  The returned pair is `np.mean` and
  `np.std` of the full `sims × horizon` matrix of path prices. -/
noncomputable def simulate (window sims horizon : ℕ) (z : ℕ → ℕ → ℝ)
    (bids asks : List ℝ) : Option (ℝ × ℝ) :=
  if bids.length < window then
    match bids, asks with
    | b :: _, a :: _ =>
        some ((b + a) / 2, 0.05 * ((b + a) / 2))
    | _, _ => none
  else
    let ph := midWindow window bids asks
    let drift := simDrift ph
    let std := simStd ph
    let future : List (List ℝ) :=
      (List.range sims).map fun i =>
        cumsum ((List.range horizon).map fun j => drift + std * z i j)
    match ph.getLast? with
    | none => none
    | some lastMid =>
        let future_prices_estimates : List ℝ :=
          (future.map fun trial => trial.map fun c => lastMid * Real.exp c).flatten
        some (mean future_prices_estimates, popStd future_prices_estimates)

/-! ### Matching engine and simulation driver

`simulation.py` (the `Simulation` class imported by `admin_run.py` and
`data_maker.py`) is not among the available sources, so the matching engine
and the driver are modelled from the spec, §4.1 and §4.4. -/

/-- Modelled from the spec: `MarketSnapshot` of §3 — the exogenous market
`(bid, ask)` pair of one tick (`simulation.py` is not in the sources). -/
structure Snapshot where
  bid : ℝ
  ask : ℝ

/-- Modelled from the spec: `Account` of §3 — share holding and cash, mutated
only by the matching engine (`simulation.py` is not in the sources). -/
structure Account where
  holding : ℕ
  money : ℝ

/-- Modelled from the spec: `OrderIntent` of §3 — the strategy's requested
quote for the current tick (`simulation.py` is not in the sources).  Volumes
are integers as requested by the strategy, before the engine's clamping. -/
structure OrderIntent where
  bid_price : ℝ
  bid_volume : ℤ
  ask_price : ℝ
  ask_volume : ℤ
  order : OrderType

/-- Modelled from the spec: the per-tick fill record of §4.1 (`simulation.py`
is not in the sources).  A quantity of 0 means the corresponding side did
not fill. -/
structure Fill where
  buyQty : ℕ
  buyPrice : ℝ
  sellQty : ℕ
  sellPrice : ℝ

/-- Modelled from the spec: step 1 of §4.1 — volume correction
(`simulation.py` is not in the sources).  `bid_volume` and `ask_volume` are
clamped to `max 0 ·`, and `ask_volume` further to the current holding
(`Int.toNat` is exactly `max 0` followed by the cast). -/
def clampIntent (holding : ℕ) (i : OrderIntent) : OrderIntent :=
  { i with
    bid_volume := (i.bid_volume.toNat : ℤ)
    ask_volume := ((min i.ask_volume.toNat holding : ℕ) : ℤ) }

/-- Modelled from the spec: the matching engine, §4.1 steps 1-5
(`simulation.py` is not in the sources).  A pure function of
(tick, snapshot, intent, account) to (new account, fill record):

1. volumes are corrected as in `clampIntent`, never rejected;
2. a market order's buy side fills at `market_ask` for the full clamped
   volume when affordable, else for the maximum affordable whole-share
   quantity, and its sell side fills at `market_bid`;
3. a limit order is eligible only while `from_time ≤ t ≤ to_time`; its buy
   side fills exactly when eligible and `bid_price ≥ market_ask`, at
   `min bid_price market_ask`, and its sell side fills exactly when eligible
   and `ask_price ≤ market_bid`, at `max ask_price market_bid`;
4. fills are applied to the account:
   `money' = money - buyPrice*buyQty + sellPrice*sellQty`,
   `holding' = holding + buyQty - sellQty`. -/
noncomputable def matchTick (t : ℤ) (snap : Snapshot) (intent : OrderIntent)
    (acct : Account) : Account × Fill :=
  let bv : ℕ := intent.bid_volume.toNat
  let av : ℕ := min intent.ask_volume.toNat acct.holding
  let fill : Fill :=
    if intent.order.type = "market" then
      { buyQty := if (bv : ℝ) * snap.ask ≤ acct.money then bv
                  else (⌊acct.money / snap.ask⌋).toNat
        buyPrice := snap.ask
        sellQty := av
        sellPrice := snap.bid }
    else
      let eligible := intent.order.from_time ≤ t ∧ t ≤ intent.order.to_time
      { buyQty := if eligible ∧ snap.ask ≤ intent.bid_price then bv else 0
        buyPrice := min intent.bid_price snap.ask
        sellQty := if eligible ∧ intent.ask_price ≤ snap.bid then av else 0
        sellPrice := max intent.ask_price snap.bid }
  ({ holding := acct.holding + fill.buyQty - fill.sellQty
     money := acct.money - fill.buyPrice * fill.buyQty
                + fill.sellPrice * fill.sellQty },
   fill)

/-- Modelled from the spec: `HistoryRow` of §3 (`simulation.py` is not in
the sources) — one row per tick, the requested quote alongside the post-tick
account state and the market snapshot. -/
structure HistoryRow where
  market_bid : ℝ
  market_ask : ℝ
  holding : ℕ
  money : ℝ
  timestamp : ℤ
  bid_price : ℝ
  bid_volume : ℤ
  ask_price : ℝ
  ask_volume : ℤ

/-- Modelled from the spec: the driver's tick loop, §4.4 and §5
(`simulation.py` is not in the sources).  `step` is the strategy: from its
private state, the previous tick's snapshot, the account, the tick, and the
tick's standard-normal draws (`z t`, consumed by the forecaster), it returns
its new state and an `OrderIntent`.  The loop invokes the strategy and then
the matching engine once per tick, appending one `HistoryRow` per tick. -/
noncomputable def runSimAux {σ : Type} (step : σ → Snapshot → Account → ℤ →
      (ℕ → ℕ → ℝ) → σ × OrderIntent) (z : ℕ → ℕ → ℕ → ℝ) :
    ℕ → List Snapshot → σ → Account → Snapshot → List HistoryRow →
      List HistoryRow × Account
  | _, [], _, acct, _, rows => (rows, acct)
  | t, snap :: feed, s, acct, prev, rows =>
      let si := step s prev acct t (z t)
      let af := matchTick t snap si.2 acct
      let row : HistoryRow :=
        { market_bid := snap.bid, market_ask := snap.ask
          holding := af.1.holding, money := af.1.money, timestamp := (t : ℤ)
          bid_price := si.2.bid_price, bid_volume := si.2.bid_volume
          ask_price := si.2.ask_price, ask_volume := si.2.ask_volume }
      runSimAux step z (t + 1) feed si.1 af.1 snap (rows ++ [row])

/-- Modelled from the spec: a full run from tick 0 over a fixed feed, with a
seed snapshot for tick 0's strategy call (§4.2) and the initial account. -/
noncomputable def runSim {σ : Type} (step : σ → Snapshot → Account → ℤ →
      (ℕ → ℕ → ℝ) → σ × OrderIntent) (z : ℕ → ℕ → ℕ → ℝ)
    (feed : List Snapshot) (s0 : σ) (a0 : Account) (seed : Snapshot) :
    List HistoryRow × Account :=
  runSimAux step z 0 feed s0 a0 seed []

/-- Modelled from the spec: `get_final_profit()` of §4.4 —
`money + holding * last_market_mid - initial_money`. -/
noncomputable def finalProfit {σ : Type} (step : σ → Snapshot → Account → ℤ →
      (ℕ → ℕ → ℝ) → σ × OrderIntent) (z : ℕ → ℕ → ℕ → ℝ)
    (feed : List Snapshot) (s0 : σ) (a0 : Account) (seed : Snapshot) : ℝ :=
  let res := runSim step z feed s0 a0 seed
  let lastSnap := feed.getLast?.getD seed
  res.2.money + res.2.holding * ((lastSnap.bid + lastSnap.ask) / 2) - a0.money

/-- A concrete retained history of exactly `window = 10` observations with
`bid = ask` throughout, so that the mid-prices are nine 1's followed by
`e`: the log-returns are eight 0's and one 1. -/
noncomputable def exBids : List ℝ :=
  [1, 1, 1, 1, 1, 1, 1, 1, 1, Real.exp 1]

/-! ### Theorems -/

/-- C10: for all integers `from_time` and `to_time`,
`OrderType.new_limit_order` constructs and returns an `OrderType` with type
"limit" and exactly those window fields, performing no validation (in
particular also when `from_time > to_time`), and
`OrderType.new_market_order timestamp` returns an `OrderType` with type
"market" and `from_time = to_time = timestamp`. -/
theorem C10_order_constructors :
    (∀ f t : ℤ, OrderType.new_limit_order f t =
        { type := "limit", from_time := f, to_time := t }) ∧
    (∀ ts : ℤ, OrderType.new_market_order ts =
        { type := "market", from_time := ts, to_time := ts }) :=
  ⟨fun _ _ => rfl, fun _ => rfl⟩

/-- C3, amended: every call to `SimpleMarketMaker.update` raises an unhandled
error before reaching a `return`, so the reference strategy never returns a
quote.  A call on a fresh instance (no retained observations) raises
`NameError` at the unqualified name `prev_mm_bid_price_history` (line 147);
any later call raises `AttributeError` at the undefined attribute
`self.holding_history` (line 158), before ever reaching the `.len` accesses
or the undefined name `holdings`. -/
theorem C3_update_always_raises (s : MakerState) (pb pa hold m : ℝ) (ts : ℤ) :
    (update s pb pa hold m ts).2 =
      Except.error (if s.prev_bid_history.length = 0 then
          PyErr.nameError "prev_mm_bid_price_history"
        else PyErr.attributeError "holding_history") := by
  by_cases hc : s.prev_bid_history.length = 0 <;> simp [update, hc]

/-- C3, counterexample to the claim as stated: the second call to `update`
(on the state left by one prior call) does not raise a `NameError`; it
raises `AttributeError` at `self.holding_history`. -/
theorem C3_second_call_attribute_error :
    errIsNameError
        ((update (update initMakerState 100 102 0 1000 0).1
          100 102 0 1000 1).2) = false ∧
    (update (update initMakerState 100 102 0 1000 0).1
        100 102 0 1000 1).2 =
      Except.error (PyErr.attributeError "holding_history") := by
  constructor <;> simp [update, initMakerState, errIsNameError]

/-- C4: no call to `update` ever returns, so the guarantee about returned
quotes is vacuous on the shipped code — the first call raises `NameError`
(shown here at a concrete input) — while the limit-order expression that the
`return` statements (lines 155 and 219) would build does satisfy the window
contract: `new_limit_order timestamp (timestamp + 1)` has
`from_time = timestamp ≤ to_time = timestamp + 1`, and the first-branch
quote `naiveQuote` carries exactly that order. -/
theorem C4_window_contract :
    (update initMakerState 100 102 0 1000 0).2 =
      Except.error (PyErr.nameError "prev_mm_bid_price_history") ∧
    (∀ ts : ℤ,
      (OrderType.new_limit_order ts (ts + 1)).from_time = ts ∧
      (OrderType.new_limit_order ts (ts + 1)).to_time = ts + 1 ∧
      (OrderType.new_limit_order ts (ts + 1)).from_time ≤
        (OrderType.new_limit_order ts (ts + 1)).to_time) ∧
    (∀ pb pa m : ℝ, ∀ ts : ℤ,
      (naiveQuote pb pa m ts).order = OrderType.new_limit_order ts (ts + 1)) := by
  refine ⟨by simp [update, initMakerState],
    fun ts => ⟨rfl, rfl, by show ts ≤ ts + 1; omega⟩,
    fun pb pa m ts => rfl⟩

/-- Helper: with a fill rate above the 0.75 target the source decrements
`spread_pct` and its `min (· ) 0.9` clamp is inert below 0.905. -/
theorem adjustSpread_stepDown (s : ℝ) (hs : s ≤ 0.905) :
    adjustSpread 1 s = s - 0.005 := by
  unfold adjustSpread
  rw [if_pos (by norm_num)]
  exact min_eq_left (by linarith)

/-- Helper: with a fill rate below the 0.75 target the source increments
`spread_pct` and its `max (· ) 0.1` clamp is inert above 0.095. -/
theorem adjustSpread_stepUp (s : ℝ) (hs : 0.095 ≤ s) :
    adjustSpread 0 s = s + 0.005 := by
  unfold adjustSpread
  rw [if_neg (by norm_num)]
  exact max_eq_left (by linarith)

/-- Helper: starting from the constructor value 0.5, `n` consecutive
adapting ticks with fill rate 1 leave `spread_pct = 0.5 - n * 0.005`. -/
theorem adjustSpread_iter_down (n : ℕ) :
    (fun s => adjustSpread 1 s)^[n] 0.5 = 0.5 - n * 0.005 := by
  induction n with
  | zero => simp
  | succ n ih =>
      rw [Function.iterate_succ_apply', ih, adjustSpread_stepDown]
      · push_cast; ring
      · have hn : (0 : ℝ) ≤ (n : ℝ) * 0.005 := by positivity
        linarith

/-- Helper: starting from the constructor value 0.5, `n` consecutive
adapting ticks with fill rate 0 leave `spread_pct = 0.5 + n * 0.005`. -/
theorem adjustSpread_iter_up (n : ℕ) :
    (fun s => adjustSpread 0 s)^[n] 0.5 = 0.5 + n * 0.005 := by
  induction n with
  | zero => simp
  | succ n ih =>
      rw [Function.iterate_succ_apply', ih, adjustSpread_stepUp]
      · push_cast; ring
      · have hn : (0 : ℝ) ≤ (n : ℝ) * 0.005 := by positivity
        linarith

/-- C2: the spread-adaptation block of `update` (lines 176-193) does not keep
`spread_pct` in `[0.1, 0.9]`.  The source's clamps are on the wrong sides —
`min (· ) 0.9` after the decrement and `max (· ) 0.1` after the increment,
both inert — so from the constructor value 0.5, 81 consecutive adapting
ticks with fill rate 1 (> 0.75) drive `spread_pct` to 0.095 < 0.1, and 81
consecutive adapting ticks with fill rate 0 drive it to 0.905 > 0.9. -/
theorem C2_spread_escapes_interval :
    (fun s => adjustSpread 1 s)^[81] 0.5 < 0.1 ∧
    0.9 < (fun s => adjustSpread 0 s)^[81] 0.5 := by
  rw [adjustSpread_iter_down, adjustSpread_iter_up]
  constructor <;> norm_num

/-- C5, amended: a call to the forecaster with at least one and fewer than
`window` retained observations returns exactly
`(initial_mid_price, 0.05 * initial_mid_price)` for the first retained
`(bid, ask)` observation, without failing. -/
theorem C5_bootstrap (w sims horizon : ℕ) (z : ℕ → ℕ → ℝ) (b a : ℝ)
    (bids asks : List ℝ) (hw : (b :: bids).length < w) :
    simulate w sims horizon z (b :: bids) (a :: asks) =
      some ((b + a) / 2, 0.05 * ((b + a) / 2)) := by
  unfold simulate
  rw [if_pos hw]

/-- Witness for `C5_bootstrap` at a concrete input: one retained observation
`(1, 3)` with `window = 10` yields the bootstrap pair `(2, 0.1)`. -/
theorem C5_bootstrap_witness :
    ([(1 : ℝ)] : List ℝ).length < 10 ∧
    simulate 10 10 3 (fun _ _ => 0) [(1 : ℝ)] [(3 : ℝ)] =
      some (((1 : ℝ) + 3) / 2, 0.05 * (((1 : ℝ) + 3) / 2)) :=
  ⟨by simp, C5_bootstrap 10 10 3 (fun _ _ => 0) 1 3 [] [] (by simp)⟩

/-- C5, counterexample to the claim as stated: with zero retained
observations (fewer than `window`), the forecaster does not return the
bootstrap pair — `self.prev_bid_history[0]` raises `IndexError`, modelled
here by `none`. -/
theorem C5_empty_history_fails :
    simulate 10 10 3 (fun _ _ => 0) ([] : List ℝ) ([] : List ℝ) = none := by
  unfold simulate
  rw [if_pos (by simp)]

/-- Helper: the mean of a nonempty constant list is its value. -/
theorem mean_replicate (n : ℕ) (x : ℝ) (hn : n ≠ 0) :
    mean (List.replicate n x) = x := by
  have hn' : (n : ℝ) ≠ 0 := by exact_mod_cast hn
  unfold mean
  rw [List.sum_replicate, List.length_replicate, nsmul_eq_mul]
  exact mul_div_cancel_left₀ x hn'

/-- Helper: a constant list has population variance 0. -/
theorem popVar_replicate (n : ℕ) (x : ℝ) :
    popVar (List.replicate n x) = 0 := by
  cases n with
  | zero => simp [popVar, mean]
  | succ n =>
      have hm := mean_replicate (n + 1) x (Nat.succ_ne_zero n)
      unfold popVar
      rw [hm, List.map_replicate]
      simp [mean, List.sum_replicate]

/-- Helper: pointwise difference of a constant list against itself shifted
by one is the constant-zero list. -/
theorem zipWith_sub_rep (n : ℕ) (x : ℝ) :
    List.zipWith (fun a b => a - b) (List.replicate n x)
      (x :: List.replicate n x) = List.replicate n 0 := by
  induction n with
  | zero => simp
  | succ n ih =>
      simp only [List.replicate_succ, List.zipWith_cons_cons, sub_self]
      rw [ih]

/-- Helper: `np.diff` of a constant list is a constant-zero list. -/
theorem diffList_replicate (n : ℕ) (x : ℝ) :
    diffList (List.replicate n x) = List.replicate (n - 1) 0 := by
  cases n with
  | zero => simp [diffList]
  | succ n =>
      unfold diffList
      rw [List.replicate_succ x n, List.tail_cons, zipWith_sub_rep]
      simp

/-- Helper: flattening `n` copies of an `m`-element constant list gives the
`n*m`-element constant list. -/
theorem flatten_replicate_replicate (n m : ℕ) (c : ℝ) :
    (List.replicate n (List.replicate m c)).flatten =
      List.replicate (n * m) c := by
  induction n with
  | zero => simp
  | succ n ih =>
      rw [List.replicate_succ, List.flatten_cons, ih, ← List.replicate_add]
      congr 1
      ring

/-- Helper: the forecaster's `std` variable vanishes on a constant window. -/
theorem simStd_replicate (c : ℝ) : simStd (List.replicate 10 c) = 0 := by
  unfold simStd popStd
  rw [List.map_replicate, diffList_replicate, popVar_replicate, Real.sqrt_zero]
  norm_num

/-- Helper: the forecaster's `drift` variable vanishes on a constant
window. -/
theorem simDrift_replicate (c : ℝ) : simDrift (List.replicate 10 c) = 0 := by
  unfold simDrift
  rw [simStd_replicate, List.map_replicate, diffList_replicate,
    mean_replicate _ _ (by norm_num)]
  norm_num

/-- C6: the forecaster configured with `window = 10`, `simulations = 10`,
`sim_horizon = 3` (the constructor values), on any bid/ask history of at
least 10 observations whose mid-price window is constantly `c`, returns
mean `c` (the last mid-price) and standard deviation 0, for every choice of
standard-normal draws. -/
theorem C6_constant_series (bids asks : List ℝ) (c : ℝ) (z : ℕ → ℕ → ℝ)
    (hlen : 10 ≤ bids.length)
    (hconst : midWindow 10 bids asks = List.replicate 10 c) :
    simulate 10 10 3 z bids asks = some (c, 0) := by
  have h9 : ¬ bids.length < 10 := by omega
  have hlast : (List.replicate 10 c).getLast? = some c := rfl
  have hmap3 : ∀ i : ℕ, ((List.range 3).map fun j => (0 : ℝ) + 0 * z i j) =
      List.replicate 3 0 := by
    intro i
    simp
  have hcs : cumsum (List.replicate 3 (0 : ℝ)) = List.replicate 3 0 := by
    show cumsum [0, 0, 0] = [0, 0, 0]
    norm_num [cumsum, List.scanl]
  have h30 : mean (List.replicate 30 c) = c := mean_replicate 30 c (by norm_num)
  have h30v : popStd (List.replicate 30 c) = 0 := by
    unfold popStd
    rw [popVar_replicate, Real.sqrt_zero]
  unfold simulate
  rw [if_neg h9]
  simp only [hconst, simStd_replicate, simDrift_replicate, hmap3, hcs, hlast,
    List.map_replicate, Real.exp_zero, mul_one]
  simp only [List.map_const', List.length_range, List.map_replicate,
    Real.exp_zero, mul_one, flatten_replicate_replicate]
  norm_num [h30, h30v]

/-- Witness for `C6_constant_series` at a concrete input: ten observations
with bids constantly 1 and asks constantly 3 (mid-price constantly 2) give
forecast `(2, 0)`. -/
theorem C6_constant_series_witness :
    10 ≤ (List.replicate 10 (1 : ℝ)).length ∧
    midWindow 10 (List.replicate 10 (1 : ℝ)) (List.replicate 10 (3 : ℝ)) =
      List.replicate 10 2 ∧
    simulate 10 10 3 (fun _ _ => 0) (List.replicate 10 (1 : ℝ))
      (List.replicate 10 (3 : ℝ)) = some (2, 0) := by
  have hconst : midWindow 10 (List.replicate 10 (1 : ℝ))
      (List.replicate 10 (3 : ℝ)) = List.replicate 10 2 := by
    show midWindow 10 [1, 1, 1, 1, 1, 1, 1, 1, 1, 1]
        [3, 3, 3, 3, 3, 3, 3, 3, 3, 3] = [2, 2, 2, 2, 2, 2, 2, 2, 2, 2]
    norm_num [midWindow, lastN, List.zipWith]
  exact ⟨by simp, hconst, C6_constant_series _ _ 2 _ (by simp) hconst⟩

/-- C1: evaluation of the forecaster's main branch on `exBids` used as both
histories.  The population variance of the log-returns is `8/81`, and:

* the source's local `std` (`simStd`, line 229: `np.std(diffs) ** 2`) holds
  that *variance* `8/81`, which is then passed to `np.random.normal` as the
  scale, whereas the claim requires standard deviation
  `sqrt(variance) = sqrt(8/81)` — and `sqrt (8/81) ≠ 8/81`;
* the source's `drift` (`simDrift`, line 230: `np.mean(diffs) + std ** 2/2`)
  is `mean + variance² / 2 = 761/6561`, whereas the claim's
  `mean + variance / 2` is `13/81 = 1053/6561`, and the two differ. -/
theorem C1_forecaster_bug :
    simStd (midWindow 10 exBids exBids) = 8 / 81 ∧
    simDrift (midWindow 10 exBids exBids) = 761 / 6561 ∧
    mean (diffList ((midWindow 10 exBids exBids).map Real.log)) +
      popVar (diffList ((midWindow 10 exBids exBids).map Real.log)) / 2
        = 13 / 81 ∧
    Real.sqrt (popVar (diffList ((midWindow 10 exBids exBids).map Real.log)))
        = Real.sqrt (8 / 81) ∧
    (761 / 6561 : ℝ) ≠ 13 / 81 ∧
    Real.sqrt (8 / 81) ≠ (8 / 81 : ℝ) := by
  have hmid : midWindow 10 exBids exBids =
      [1, 1, 1, 1, 1, 1, 1, 1, 1, Real.exp 1] := by
    norm_num [midWindow, lastN, exBids, List.zipWith]
  have hlog : ([1, 1, 1, 1, 1, 1, 1, 1, 1, Real.exp 1] : List ℝ).map Real.log
      = [0, 0, 0, 0, 0, 0, 0, 0, 0, 1] := by
    simp
  have hdif : diffList [0, 0, 0, 0, 0, 0, 0, 0, 0, (1 : ℝ)]
      = [0, 0, 0, 0, 0, 0, 0, 0, 1] := by
    norm_num [diffList, List.zipWith]
  have hmean : mean [0, 0, 0, 0, 0, 0, 0, 0, (1 : ℝ)] = 1 / 9 := by
    norm_num [mean]
  have hvar : popVar [0, 0, 0, 0, 0, 0, 0, 0, (1 : ℝ)] = 8 / 81 := by
    unfold popVar
    rw [hmean]
    norm_num [mean]
  have hstd : simStd (midWindow 10 exBids exBids) = 8 / 81 := by
    unfold simStd popStd
    rw [hmid, hlog, hdif, hvar, Real.sq_sqrt (by norm_num : (0:ℝ) ≤ 8 / 81)]
  refine ⟨hstd, ?_, ?_, ?_, by norm_num, ?_⟩
  · unfold simDrift
    rw [hstd]
    unfold mean
    rw [hmid, hlog, hdif]
    norm_num
  · rw [hmid, hlog, hdif, hmean, hvar]
    norm_num
  · rw [hmid, hlog, hdif, hvar]
  · intro h
    have h2 : Real.sqrt (8 / 81) ^ 2 = ((8 : ℝ) / 81) ^ 2 := by rw [h]
    rw [Real.sq_sqrt (by norm_num : (0:ℝ) ≤ 8 / 81)] at h2
    norm_num at h2

/-- C7: the matching engine corrects malformed volumes instead of rejecting
them — running it on any intent gives exactly the same result as running it
on the volume-corrected intent, whose `bid_volume` is `max 0` of the request
and whose `ask_volume` is additionally capped by the holding.  The engine is
a total function of (snapshot, intent, account), so no other input is
rejectable. -/
theorem C7_volume_correction (t : ℤ) (snap : Snapshot) (i : OrderIntent)
    (a : Account) :
    matchTick t snap i a = matchTick t snap (clampIntent a.holding i) a ∧
    (clampIntent a.holding i).bid_volume = max 0 i.bid_volume ∧
    (clampIntent a.holding i).ask_volume =
      min (max 0 i.ask_volume) (a.holding : ℤ) := by
  refine ⟨?_, ?_, ?_⟩
  · have hbv : ((i.bid_volume.toNat : ℤ)).toNat = i.bid_volume.toNat := by
      omega
    have hav : min (((min i.ask_volume.toNat a.holding : ℕ) : ℤ)).toNat
        a.holding = min i.ask_volume.toNat a.holding := by
      omega
    have hbv' : (max i.bid_volume 0).toNat = i.bid_volume.toNat := by
      omega
    have hav' : (min (max i.ask_volume 0) (a.holding : ℤ)).toNat =
        min i.ask_volume.toNat a.holding := by
      omega
    simp [matchTick, clampIntent, hbv, hav, hbv', hav']
  · simp only [clampIntent]
    omega
  · simp only [clampIntent]
    omega

/-- C8: limit-order semantics of the matching engine.  For a limit intent:
the buy side fills exactly when `from_time ≤ t ≤ to_time` and
`bid_price ≥ market_ask`, at fill price `min bid_price market_ask`, for the
clamped requested volume; the sell side symmetrically against `market_bid`;
and when neither side fills the account is unchanged at that tick. -/
theorem C8_limit_fill_rule (t : ℤ) (snap : Snapshot) (i : OrderIntent)
    (a : Account) (hl : i.order.type = "limit") :
    (matchTick t snap i a).2.buyQty =
      (if (i.order.from_time ≤ t ∧ t ≤ i.order.to_time) ∧
          snap.ask ≤ i.bid_price then i.bid_volume.toNat else 0) ∧
    (matchTick t snap i a).2.buyPrice = min i.bid_price snap.ask ∧
    (matchTick t snap i a).2.sellQty =
      (if (i.order.from_time ≤ t ∧ t ≤ i.order.to_time) ∧
          i.ask_price ≤ snap.bid then min i.ask_volume.toNat a.holding
        else 0) ∧
    (matchTick t snap i a).2.sellPrice = max i.ask_price snap.bid ∧
    ((matchTick t snap i a).2.buyQty = 0 →
      (matchTick t snap i a).2.sellQty = 0 →
      (matchTick t snap i a).1 = a) := by
  have hm : ¬ i.order.type = "market" := by
    rw [hl]
    decide
  refine ⟨?_, ?_, ?_, ?_, ?_⟩
  · by_cases hb : (i.order.from_time ≤ t ∧ t ≤ i.order.to_time) ∧
        snap.ask ≤ i.bid_price <;> simp [matchTick, hm, hb]
  · simp [matchTick, hm]
  · by_cases hs : (i.order.from_time ≤ t ∧ t ≤ i.order.to_time) ∧
        i.ask_price ≤ snap.bid <;> simp [matchTick, hm, hs]
  · simp [matchTick, hm]
  · intro h1 h2
    have hh : (matchTick t snap i a).1.holding =
        a.holding + (matchTick t snap i a).2.buyQty -
          (matchTick t snap i a).2.sellQty := rfl
    have hmn : (matchTick t snap i a).1.money =
        a.money - (matchTick t snap i a).2.buyPrice *
            (matchTick t snap i a).2.buyQty +
          (matchTick t snap i a).2.sellPrice *
            (matchTick t snap i a).2.sellQty := rfl
    have heta : (matchTick t snap i a).1 =
        ⟨(matchTick t snap i a).1.holding, (matchTick t snap i a).1.money⟩ :=
      rfl
    rw [heta, hh, hmn, h1, h2]
    simp

/-- Witness for `C8_limit_fill_rule` at a concrete input: tick 5, market
`(99, 101)`, a limit buy at 102 for 4 shares and sell at 100 for 3 shares
valid on `[3, 7]`, holding 2. -/
theorem C8_limit_fill_rule_witness :
    (OrderType.new_limit_order 3 7).type = "limit" ∧
    ((matchTick 5 ⟨99, 101⟩ ⟨102, 4, 100, 3, OrderType.new_limit_order 3 7⟩
        ⟨2, 1000⟩).2.buyQty =
      (if (((3:ℤ) ≤ 5 ∧ (5:ℤ) ≤ 7) ∧ (101:ℝ) ≤ 102) then ((4:ℤ)).toNat
        else 0) ∧
    (matchTick 5 ⟨99, 101⟩ ⟨102, 4, 100, 3, OrderType.new_limit_order 3 7⟩
        ⟨2, 1000⟩).2.buyPrice = min (102:ℝ) 101 ∧
    (matchTick 5 ⟨99, 101⟩ ⟨102, 4, 100, 3, OrderType.new_limit_order 3 7⟩
        ⟨2, 1000⟩).2.sellQty =
      (if (((3:ℤ) ≤ 5 ∧ (5:ℤ) ≤ 7) ∧ (100:ℝ) ≤ 99) then min ((3:ℤ)).toNat 2
        else 0) ∧
    (matchTick 5 ⟨99, 101⟩ ⟨102, 4, 100, 3, OrderType.new_limit_order 3 7⟩
        ⟨2, 1000⟩).2.sellPrice = max (100:ℝ) 99 ∧
    ((matchTick 5 ⟨99, 101⟩ ⟨102, 4, 100, 3, OrderType.new_limit_order 3 7⟩
        ⟨2, 1000⟩).2.buyQty = 0 →
      (matchTick 5 ⟨99, 101⟩ ⟨102, 4, 100, 3, OrderType.new_limit_order 3 7⟩
        ⟨2, 1000⟩).2.sellQty = 0 →
      (matchTick 5 ⟨99, 101⟩ ⟨102, 4, 100, 3, OrderType.new_limit_order 3 7⟩
        ⟨2, 1000⟩).1 = ⟨2, 1000⟩)) :=
  ⟨rfl, C8_limit_fill_rule 5 ⟨99, 101⟩
    ⟨102, 4, 100, 3, OrderType.new_limit_order 3 7⟩ ⟨2, 1000⟩ rfl⟩

/-- Helper: the driver's tick loop consults the draw oracle only at the
ticks it actually runs, so two oracles that agree on those ticks produce
identical runs. -/
theorem runSimAux_z_agree {σ : Type} (step : σ → Snapshot → Account → ℤ →
      (ℕ → ℕ → ℝ) → σ × OrderIntent) (feed : List Snapshot) :
    ∀ (t : ℕ) (z₁ z₂ : ℕ → ℕ → ℕ → ℝ) (s : σ) (a : Account)
      (prev : Snapshot) (rows : List HistoryRow),
      (∀ u, t ≤ u → u < t + feed.length → z₁ u = z₂ u) →
      runSimAux step z₁ t feed s a prev rows =
        runSimAux step z₂ t feed s a prev rows := by
  induction feed with
  | nil =>
      intro t z₁ z₂ s a prev rows _
      rfl
  | cons snap rest ih =>
      intro t z₁ z₂ s a prev rows hz
      have hz0 : z₁ t = z₂ t := hz t le_rfl (by simp)
      unfold runSimAux
      rw [hz0]
      exact ih (t + 1) z₁ z₂ _ _ _ _
        (fun u hu1 hu2 => hz u (by omega) (by simp only [List.length_cons]; omega))

/-- C9: determinism of the replay.  For any fixed feed, strategy, initial
state and seed snapshot, two runs whose standard-normal draw oracles agree
on every tick of the feed produce identical `HistoryRow` sequences and
final accounts, and identical final profit: the run is a function of the
feed, the strategy and the seeded randomness alone. -/
theorem C9_replay_deterministic {σ : Type} (step : σ → Snapshot → Account →
      ℤ → (ℕ → ℕ → ℝ) → σ × OrderIntent) (feed : List Snapshot)
    (z₁ z₂ : ℕ → ℕ → ℕ → ℝ) (s0 : σ) (a0 : Account) (seed : Snapshot)
    (hz : ∀ u, u < feed.length → z₁ u = z₂ u) :
    runSim step z₁ feed s0 a0 seed = runSim step z₂ feed s0 a0 seed ∧
    finalProfit step z₁ feed s0 a0 seed =
      finalProfit step z₂ feed s0 a0 seed := by
  have h := runSimAux_z_agree step feed 0 z₁ z₂ s0 a0 seed []
    (fun u hu1 hu2 => hz u (by omega))
  refine ⟨h, ?_⟩
  unfold finalProfit runSim
  unfold runSim at h
  rw [h]

/-- Witness for `C9_replay_deterministic` at a concrete input: a one-tick
feed with a trivial strategy, and two oracles that agree on tick 0 but
differ at every later (never consulted) tick. -/
theorem C9_replay_witness :
    (∀ u : ℕ, u < [(⟨99, 101⟩ : Snapshot)].length →
      (fun (_ _ : ℕ) => (0 : ℝ)) =
        (fun (t _ _ : ℕ) => if t = 0 then (0 : ℝ) else 7) u) ∧
    runSim (fun (_ : Unit) _ _ _ _ =>
        ((), ⟨0, 0, 0, 0, OrderType.new_market_order 0⟩))
      (fun _ _ _ => (0 : ℝ)) [⟨99, 101⟩] () ⟨0, 1000⟩ ⟨99, 101⟩ =
    runSim (fun (_ : Unit) _ _ _ _ =>
        ((), ⟨0, 0, 0, 0, OrderType.new_market_order 0⟩))
      (fun t _ _ => if t = 0 then (0 : ℝ) else 7) [⟨99, 101⟩] ()
      ⟨0, 1000⟩ ⟨99, 101⟩ := by
  have hz : ∀ u : ℕ, u < [(⟨99, 101⟩ : Snapshot)].length →
      (fun (_ _ : ℕ) => (0 : ℝ)) =
        (fun (t _ _ : ℕ) => if t = 0 then (0 : ℝ) else 7) u := by
    intro u hu
    simp only [List.length_cons, List.length_nil] at hu
    interval_cases u
    funext i j
    simp
  exact ⟨hz, (C9_replay_deterministic _ _ _ _ _ ⟨0, 1000⟩ ⟨99, 101⟩ hz).1⟩

end MMGame
